import Mathlib

/-!
Verification of the AltDbMigration schema engine: identifier/type
validation, DDL synthesis (`BuildAddColumnDDL`), the timeout
composition of the introspector, and the database-switch flow of the
HTTP handler. Go strings are modelled as lists of characters; Go byte
length (`len(s)`) is modelled as the UTF-8 byte length of the
character list.
-/

namespace AltDb

/-- A Go string, modelled as its sequence of runes. -/
abbrev Str := List Char

/-- Go `len(s)`: the UTF-8 byte length of the string. -/
def utf8Len (s : Str) : Nat := (s.map Char.utf8Size).sum

/-- First-character test of `ValidIdentifier` (mutations.go line 132):
`(r >= 'a' && r <= 'z') || r == '_'`. -/
def isIdentFirst (c : Char) : Bool :=
  (decide ('a' ≤ c) && decide (c ≤ 'z')) || c == '_'

/-- Later-character test of `ValidIdentifier` (mutations.go line 136):
`(r >= 'a' && r <= 'z') || (r >= '0' && r <= '9') || r == '_'`. -/
def isIdentRest (c : Char) : Bool :=
  (decide ('a' ≤ c) && decide (c ≤ 'z')) ||
    (decide ('0' ≤ c) && decide (c ≤ '9')) || c == '_'

/-- The character loop of `ValidIdentifier` (mutations.go lines 130-140):
the rune at byte index 0 uses the first-character rule, every later rune
the later-character rule. -/
def identOk : Str → Bool
  | [] => true
  | c :: cs => isIdentFirst c && cs.all isIdentRest

/-- Go `ValidIdentifier` (src/internal/schema/mutations.go lines 126-142):
rejects the empty string and strings longer than 63 bytes, then runs the
character loop. -/
def ValidIdentifier (name : Str) : Bool :=
  if name = [] ∨ 63 < utf8Len name then false
  else identOk name

/-- The spec's regular expression `^[a-z_][a-z0-9_]*$`: first character a
lowercase ASCII letter or underscore, remaining characters lowercase
ASCII letters, digits, or underscore; the empty string does not match. -/
def matchesIdentPattern : Str → Bool
  | [] => false
  | c :: cs =>
      ((decide ('a' ≤ c) && decide (c ≤ 'z')) || c == '_') &&
        cs.all (fun x => (decide ('a' ≤ x) && decide (x ≤ 'z')) ||
          (decide ('0' ≤ x) && decide (x ≤ '9')) || x == '_')

/-- A PostgreSQL data type with metadata (mutations.go lines 67-71). -/
structure TypeInfo where
  Name : Str
  Description : Str
  Category : Str
deriving DecidableEq

/-- Go `AllowedTypes` (mutations.go lines 75-111): the canonical list of
supported PostgreSQL types. -/
def AllowedTypes : List TypeInfo :=
  [⟨"text".data, "Variable length string".data, "String".data⟩,
   ⟨"varchar".data, "Variable length (limited)".data, "String".data⟩,
   ⟨"char".data, "Fixed length".data, "String".data⟩,
   ⟨"smallint".data, "16-bit integer".data, "Numeric".data⟩,
   ⟨"integer".data, "32-bit integer".data, "Numeric".data⟩,
   ⟨"bigint".data, "64-bit integer".data, "Numeric".data⟩,
   ⟨"numeric".data, "Decimal number".data, "Numeric".data⟩,
   ⟨"real".data, "32-bit floating point".data, "Numeric".data⟩,
   ⟨"double precision".data, "64-bit floating point".data, "Numeric".data⟩,
   ⟨"serial".data, "Auto-increment 32-bit".data, "Serial".data⟩,
   ⟨"bigserial".data, "Auto-increment 64-bit".data, "Serial".data⟩,
   ⟨"boolean".data, "true/false".data, "Boolean".data⟩,
   ⟨"date".data, "Date only".data, "Date/Time".data⟩,
   ⟨"time".data, "Time only".data, "Date/Time".data⟩,
   ⟨"timestamp".data, "Date and time".data, "Date/Time".data⟩,
   ⟨"timestamptz".data, "Timestamp with timezone".data, "Date/Time".data⟩,
   ⟨"uuid".data, "UUID".data, "UUID".data⟩,
   ⟨"json".data, "JSON data".data, "JSON".data⟩,
   ⟨"jsonb".data, "Binary JSON data".data, "JSON".data⟩,
   ⟨"bytea".data, "Binary data".data, "Binary".data⟩]

/-- Go `allowedTypesMap[t]` (mutations.go lines 114-122): membership of a
type name in the allow-list, and `IsValidType` (lines 153-155). -/
def IsValidType (t : Str) : Bool :=
  (AllowedTypes.map TypeInfo.Name).contains t

/-- The typed errors `BuildAddColumnDDL` and `sanitizeType` can return
(mutations.go lines 159-233, one constructor per `fmt.Errorf` site). -/
inductive DDLError where
  | invalidTableName
  | invalidColumnName
  | invalidType
  | invalidFKTableName
  | invalidFKColumnName
deriving DecidableEq

/-- Go `sanitizeType` (mutations.go lines 159-164): returns the type name
unchanged when it is on the allow-list, an error otherwise. -/
def sanitizeType (t : Str) : Except DDLError Str :=
  if IsValidType t then .ok t else .error .invalidType

/-- Go `strings.ReplaceAll(name, quote, two quotes)` as used by
`sanitizeIdentifier` (mutations.go line 148): every double quote is
doubled. -/
def escapeQuotes : Str → Str
  | [] => []
  | c :: cs => if c == '"' then '"' :: '"' :: escapeQuotes cs
               else c :: escapeQuotes cs

/-- Go `sanitizeIdentifier` (mutations.go lines 146-150): escape embedded
double quotes and wrap in double quotes. -/
def sanitizeIdentifier (name : Str) : Str :=
  '"' :: escapeQuotes name ++ ['"']

/-- Go `ColumnDef` (mutations.go lines 167-175). -/
structure ColumnDef where
  Name : Str
  «Type» : Str
  NotNull : Bool
  PrimaryKey : Bool
  Unique : Bool
  ReferencesTable : Str
  ReferencesColumn : Str
deriving DecidableEq

/-- Go `strings.Join(parts, space)` (mutations.go line 232). -/
def joinSpace : List Str → Str
  | [] => []
  | [p] => p
  | p :: q :: rest => p ++ ' ' :: joinSpace (q :: rest)

/-- Go `BuildAddColumnDDL` (mutations.go lines 188-233): validates the
table name, column name, type and (when both are non-empty) the
foreign-key reference identifiers, then assembles the ALTER TABLE
statement from the space-joined parts list. -/
def BuildAddColumnDDL (tableName : Str) (col : ColumnDef) :
    Except DDLError Str :=
  if !ValidIdentifier tableName then .error .invalidTableName
  else if !ValidIdentifier col.Name then .error .invalidColumnName
  else
    match sanitizeType col.«Type» with
    | .error e => .error e
    | .ok safeType =>
      let parts0 := [sanitizeIdentifier col.Name, safeType]
      let parts1 := if col.NotNull then parts0 ++ ["NOT NULL".data]
                    else parts0
      let parts2 := if col.PrimaryKey then parts1 ++ ["PRIMARY KEY".data]
                    else parts1
      let parts3 := if col.Unique && !col.PrimaryKey then
                      parts2 ++ ["UNIQUE".data]
                    else parts2
      if col.ReferencesTable ≠ [] ∧ col.ReferencesColumn ≠ [] then
        if !ValidIdentifier col.ReferencesTable then
          .error .invalidFKTableName
        else if !ValidIdentifier col.ReferencesColumn then
          .error .invalidFKColumnName
        else
          .ok ("ALTER TABLE ".data ++ sanitizeIdentifier tableName ++
            " ADD COLUMN ".data ++
            joinSpace (parts3 ++ ["REFERENCES ".data ++
              sanitizeIdentifier col.ReferencesTable ++ "(".data ++
              sanitizeIdentifier col.ReferencesColumn ++ ")".data]))
      else
        .ok ("ALTER TABLE ".data ++ sanitizeIdentifier tableName ++
          " ADD COLUMN ".data ++ joinSpace parts3)

/-- Go `ForeignKey` (models.go lines 14-18). -/
structure ForeignKey where
  ColumnName : Str
  ReferencesTable : Str
  ReferencesColumn : Str
deriving DecidableEq

/-- Go `AddColumnRequest` (mutations.go lines 8-15); the optional
`ForeignKey` pointer becomes an `Option`. -/
structure AddColumnRequest where
  Name : Str
  «Type» : Str
  Nullable : Bool
  PrimaryKey : Bool
  Unique : Bool
  ForeignKey : Option ForeignKey
deriving DecidableEq

/-- The `ColumnDef` assembled by `Introspector.AddColumn`
(mutations.go lines 33-45): `NotNull` is the negation of the request's
`Nullable`, and the reference fields are copied from the foreign key
when one is present (the Go zero value, the empty string, otherwise). -/
def toColumnDef (req : AddColumnRequest) : ColumnDef :=
  { Name := req.Name
    «Type» := req.«Type»
    NotNull := !req.Nullable
    PrimaryKey := req.PrimaryKey
    Unique := req.Unique
    ReferencesTable := match req.ForeignKey with
      | some fk => fk.ReferencesTable
      | none => []
    ReferencesColumn := match req.ForeignKey with
      | some fk => fk.ReferencesColumn
      | none => [] }

/-- A validated identifier as it appears inside a statement: the
original name wrapped in double quotes. -/
def quoteIdent (s : Str) : Str := '"' :: s ++ ['"']

/-- Go `withTimeout` (introspect.go lines 52-66), on absolute times in
nanoseconds: given the configured query timeout, the current instant
`now` and the parent context's deadline (`none` when the parent has no
deadline), returns the derived context's deadline. When the parent has a
deadline whose remaining time `deadline - now` is at most the query
timeout, the code wraps the parent with `context.WithCancel`, keeping
the parent deadline; otherwise it applies `context.WithTimeout`, whose
deadline here is `now + queryTimeout` (the parent's deadline, when
present in this branch, is strictly later and so does not cap it). -/
def withTimeout (queryTimeout now : Int) (parentDeadline : Option Int) :
    Int :=
  match parentDeadline with
  | some d => if d - now ≤ queryTimeout then d else now + queryTimeout
  | none => now + queryTimeout

/-- The `(pool, dbName)` pair guarded by the introspector's mutex
(introspect.go lines 13-18). Pools are identified by numeric ids;
`none` is Go's nil pool pointer. -/
structure IntrospectorState where
  pool : Option Nat
  dbName : Str
deriving DecidableEq

/-- Go `SetPool` (introspect.go lines 27-34): replaces the pair under the
write lock and returns the old pool. -/
def SetPool (st : IntrospectorState) (p : Nat) (name : Str) :
    IntrospectorState × Option Nat :=
  ({ pool := some p, dbName := name }, st.pool)

/-- Go `CurrentDatabase` (introspect.go lines 37-41). -/
def CurrentDatabase (st : IntrospectorState) : Str := st.dbName

/-- Go `5 * time.Second` in nanoseconds. -/
def fiveSeconds : Int := 5000000000

/-- The close-wait bound computed by `handleSwitchDatabase`
(part_002 lines 280-284): `timeout := h.config.QueryTimeout * 2;
if timeout < 5*time.Second { timeout = 5*time.Second }`. -/
def closeWaitBound (queryTimeout : Int) : Int :=
  let t := queryTimeout * 2
  if t < fiveSeconds then fiveSeconds else t

/-- The response categories of `handleSwitchDatabase`
(part_002 lines 101-112 and 216-295). -/
inductive SwitchCode where
  | missingField
  | databaseError
  | unknownDatabase
  | connectionError
  | switched
deriving DecidableEq

/-- The observable effects of one `handleSwitchDatabase` call:
whether `pgxpool.New` produced a pool, whether `SetPool` was invoked,
how many times `Close` was initiated on the replaced pool, how long the
handler waited on the close (nanoseconds), whether the wait was
abandoned by the `time.After` arm, and for how long the `poolCloseMu`
lock was held after being acquired. -/
structure SwitchEffects where
  poolCreated : Bool
  setPoolCalled : Bool
  closeCallsOnOldPool : Nat
  waitedForClose : Int
  closeAbandoned : Bool
  lockHeldFor : Int
deriving DecidableEq

/-- Go `handleSwitchDatabase` (part_002 lines 216-295), as a pure function
of the request and of the outcomes of its I/O actions: `listResult` is
what `ListDatabases` returns, `newPool` what `pgxpool.New` returns,
`pingOk` whether `pool.Ping` succeeds, and `closeDuration` how long
`oldPool.Close()` takes. JSON decoding is taken as already succeeded.
The swap and the close initiation are treated as instantaneous; the
`select` over the close's done channel and `time.After(timeout)` waits
`min(closeDuration, bound)` while `poolCloseMu` is held (a tie resolves
to the done channel), and the deferred unlock releases the lock when
the handler returns. -/
def handleSwitchDatabase (queryTimeout : Int) (st : IntrospectorState)
    (reqName : Str) (listResult : Except Unit (List Str))
    (newPool : Except Unit Nat) (pingOk : Bool) (closeDuration : Int) :
    IntrospectorState × SwitchCode × SwitchEffects :=
  if reqName = [] then
    (st, .missingField, ⟨false, false, 0, 0, false, 0⟩)
  else
    match listResult with
    | .error _ => (st, .databaseError, ⟨false, false, 0, 0, false, 0⟩)
    | .ok dbs =>
      if !dbs.contains reqName then
        (st, .unknownDatabase, ⟨false, false, 0, 0, false, 0⟩)
      else
        match newPool with
        | .error _ => (st, .connectionError, ⟨false, false, 0, 0, false, 0⟩)
        | .ok p =>
          if !pingOk then
            (st, .connectionError, ⟨true, false, 0, 0, false, 0⟩)
          else
            let swapped := SetPool st p reqName
            match swapped.2 with
            | some _ =>
              let bound := closeWaitBound queryTimeout
              if closeDuration ≤ bound then
                (swapped.1, .switched,
                  ⟨true, true, 1, closeDuration, false, closeDuration⟩)
              else
                (swapped.1, .switched, ⟨true, true, 1, bound, true, bound⟩)
            | none =>
              (swapped.1, .switched, ⟨true, true, 0, 0, false, 0⟩)

/-- A row of the `pg_database` catalog as the `ListDatabases` query
reads it: the database name and its `datistemplate` flag. -/
structure PgDatabase where
  datname : Str
  datistemplate : Bool
deriving DecidableEq

/-- Modelled from the SQL text of `ListDatabases` (introspect.go lines
73-78): the names of the catalog rows with `datistemplate = false` whose
name is not in ('postgres', 'template0', 'template1'). The query's
ORDER BY affects only the order, never membership, and is left as the
catalog order here. -/
def listDatabasesModel (catalog : List PgDatabase) : List Str :=
  (catalog.filter (fun r => !r.datistemplate &&
      !(r.datname == "postgres".data) &&
      !(r.datname == "template0".data) &&
      !(r.datname == "template1".data))).map PgDatabase.datname

/-- The validations `handleAddColumn` performs before calling
`Introspector.AddColumn` (part_002 lines 327-354): the table name from
the path and the request's column name must be non-empty valid
identifiers, and the type must be non-empty and on the allow-list. The
foreign-key field of the decoded request is not inspected. -/
def handleAddColumnValidates (tableName : Str) (req : AddColumnRequest) :
    Bool :=
  !tableName.isEmpty && ValidIdentifier tableName &&
    !req.Name.isEmpty && ValidIdentifier req.Name &&
    !req.«Type».isEmpty && IsValidType req.«Type»

end AltDb

namespace AltDb

/-- C1: `ValidIdentifier` accepts exactly the strings that match
`^[a-z_][a-z0-9_]*$` and are at most 63 bytes long; every other string,
the empty string included, is rejected. -/
theorem C1_valid_identifier_characterization (s : Str) :
    ValidIdentifier s = true ↔
      (matchesIdentPattern s = true ∧ utf8Len s ≤ 63) := by
  unfold ValidIdentifier
  cases s with
  | nil => simp [matchesIdentPattern]
  | cons c cs =>
    by_cases h : 63 < utf8Len (c :: cs)
    · simp [h, matchesIdentPattern, Nat.not_le_of_lt h]
    · simp [h, Nat.le_of_not_lt h, identOk, matchesIdentPattern,
        isIdentFirst, isIdentRest]

theorem identFirst_ne_quote (c : Char) (h : isIdentFirst c = true) :
    (c == '"') = false := by
  cases hq : c == '"' with
  | false => rfl
  | true =>
    have hc : c = '"' := eq_of_beq hq
    subst hc
    exact absurd h (by decide)

theorem identRest_ne_quote (c : Char) (h : isIdentRest c = true) :
    (c == '"') = false := by
  cases hq : c == '"' with
  | false => rfl
  | true =>
    have hc : c = '"' := eq_of_beq hq
    subst hc
    exact absurd h (by decide)

theorem escapeQuotes_of_all_rest (cs : Str)
    (h : cs.all isIdentRest = true) : escapeQuotes cs = cs := by
  induction cs with
  | nil => rfl
  | cons c cs ih =>
    rw [List.all_cons, Bool.and_eq_true] at h
    rw [escapeQuotes, identRest_ne_quote c h.1]
    simp [ih h.2]

theorem escapeQuotes_of_identOk (s : Str) (h : identOk s = true) :
    escapeQuotes s = s := by
  cases s with
  | nil => rfl
  | cons c cs =>
    rw [identOk, Bool.and_eq_true] at h
    rw [escapeQuotes, identFirst_ne_quote c h.1]
    simp [escapeQuotes_of_all_rest cs h.2]

theorem validIdentifier_identOk (s : Str) (h : ValidIdentifier s = true) :
    identOk s = true := by
  unfold ValidIdentifier at h
  split at h
  · exact absurd h (by simp)
  · exact h

theorem sanitizeIdentifier_of_valid (s : Str)
    (h : ValidIdentifier s = true) :
    sanitizeIdentifier s = quoteIdent s := by
  rw [sanitizeIdentifier, quoteIdent,
    escapeQuotes_of_identOk s (validIdentifier_identOk s h)]

theorem space_not_null_data :
    " NOT NULL".data = ' ' :: "NOT NULL".data := by decide

theorem space_primary_key_data :
    " PRIMARY KEY".data = ' ' :: "PRIMARY KEY".data := by decide

theorem space_unique_data :
    " UNIQUE".data = ' ' :: "UNIQUE".data := by decide

theorem space_references_data :
    " REFERENCES ".data = ' ' :: "REFERENCES ".data := by decide

theorem space_data : " ".data = [' '] := by decide

theorem buildAddColumn_ok_of_noFK (t : Str) (col : ColumnDef)
    (hT : ValidIdentifier t = true)
    (hC : ValidIdentifier col.Name = true)
    (hTy : IsValidType col.«Type» = true)
    (hfk : col.ReferencesTable = [] ∨ col.ReferencesColumn = []) :
    BuildAddColumnDDL t col =
      .ok ("ALTER TABLE ".data ++ quoteIdent t ++ " ADD COLUMN ".data ++
        quoteIdent col.Name ++ " ".data ++ col.«Type» ++
        (if col.NotNull then " NOT NULL".data else []) ++
        (if col.PrimaryKey then " PRIMARY KEY".data else []) ++
        (if col.Unique && !col.PrimaryKey then " UNIQUE".data else [])) := by
  obtain ⟨nm, ty, nn, pk, uq, rt, rc⟩ := col
  simp only at hC hTy hfk ⊢
  have hfk' : ¬ (rt ≠ [] ∧ rc ≠ []) := by
    rcases hfk with h | h <;> simp [h]
  unfold BuildAddColumnDDL
  rw [sanitizeIdentifier_of_valid t hT, sanitizeIdentifier_of_valid nm hC]
  simp only [hT, hC, Bool.not_true, Bool.false_eq_true, if_false,
    sanitizeType, hTy, if_true, hfk', quoteIdent]
  cases nn <;> cases pk <;> cases uq <;>
    simp [joinSpace, quoteIdent, space_not_null_data, space_primary_key_data,
      space_unique_data, space_data, List.append_assoc]

theorem buildAddColumn_ok_of_FK (t : Str) (col : ColumnDef)
    (hT : ValidIdentifier t = true)
    (hC : ValidIdentifier col.Name = true)
    (hTy : IsValidType col.«Type» = true)
    (hrt : col.ReferencesTable ≠ [])
    (hrc : col.ReferencesColumn ≠ [])
    (hvt : ValidIdentifier col.ReferencesTable = true)
    (hvc : ValidIdentifier col.ReferencesColumn = true) :
    BuildAddColumnDDL t col =
      .ok ("ALTER TABLE ".data ++ quoteIdent t ++ " ADD COLUMN ".data ++
        quoteIdent col.Name ++ " ".data ++ col.«Type» ++
        (if col.NotNull then " NOT NULL".data else []) ++
        (if col.PrimaryKey then " PRIMARY KEY".data else []) ++
        (if col.Unique && !col.PrimaryKey then " UNIQUE".data else []) ++
        (" REFERENCES ".data ++ quoteIdent col.ReferencesTable ++
          "(".data ++ quoteIdent col.ReferencesColumn ++ ")".data)) := by
  obtain ⟨nm, ty, nn, pk, uq, rt, rc⟩ := col
  simp only at hC hTy hrt hrc hvt hvc ⊢
  unfold BuildAddColumnDDL
  rw [sanitizeIdentifier_of_valid t hT, sanitizeIdentifier_of_valid nm hC,
    sanitizeIdentifier_of_valid rt hvt, sanitizeIdentifier_of_valid rc hvc]
  simp only [hT, hC, hvt, hvc, Bool.not_true, Bool.false_eq_true, if_false,
    sanitizeType, hTy, if_true, hrt, hrc, ne_eq, not_false_iff, and_self,
    quoteIdent]
  cases nn <;> cases pk <;> cases uq <;>
    simp [joinSpace, quoteIdent, space_not_null_data, space_primary_key_data,
      space_unique_data, space_references_data, space_data, List.append_assoc]

/-- C2: on valid inputs the add-column builder returns exactly
`ALTER TABLE "<table>" ADD COLUMN "<column>" <type>` followed, in this
order, by ` NOT NULL` iff the request does not mark the column nullable,
` PRIMARY KEY` iff requested, ` UNIQUE` iff requested and primary key is
not, and ` REFERENCES "<refTable>"("<refColumn>")` iff both reference
fields are non-empty. -/
theorem C2_add_column_statement_shape (t : Str) (req : AddColumnRequest)
    (hT : ValidIdentifier t = true)
    (hC : ValidIdentifier req.Name = true)
    (hTy : IsValidType req.«Type» = true)
    (hR : ∀ fk, req.ForeignKey = some fk → fk.ReferencesTable ≠ [] →
        fk.ReferencesColumn ≠ [] →
        ValidIdentifier fk.ReferencesTable = true ∧
          ValidIdentifier fk.ReferencesColumn = true) :
    BuildAddColumnDDL t (toColumnDef req) =
      .ok ("ALTER TABLE ".data ++ quoteIdent t ++ " ADD COLUMN ".data ++
        quoteIdent req.Name ++ " ".data ++ req.«Type» ++
        (if req.Nullable then [] else " NOT NULL".data) ++
        (if req.PrimaryKey then " PRIMARY KEY".data else []) ++
        (if req.Unique && !req.PrimaryKey then " UNIQUE".data else []) ++
        (match req.ForeignKey with
         | some fk =>
             if fk.ReferencesTable ≠ [] ∧ fk.ReferencesColumn ≠ [] then
               " REFERENCES ".data ++ quoteIdent fk.ReferencesTable ++
                 "(".data ++ quoteIdent fk.ReferencesColumn ++ ")".data
             else []
         | none => [])) := by
  obtain ⟨nm, ty, nb, pk, uq, fko⟩ := req
  simp only at hC hTy hR ⊢
  cases fko with
  | none =>
    rw [buildAddColumn_ok_of_noFK t (toColumnDef ⟨nm, ty, nb, pk, uq, none⟩)
      hT hC hTy (Or.inl rfl)]
    cases nb <;> simp [toColumnDef]
  | some fk =>
    by_cases hfk : fk.ReferencesTable ≠ [] ∧ fk.ReferencesColumn ≠ []
    · obtain ⟨hvt, hvc⟩ := hR fk rfl hfk.1 hfk.2
      rw [buildAddColumn_ok_of_FK t (toColumnDef ⟨nm, ty, nb, pk, uq, some fk⟩)
        hT hC hTy hfk.1 hfk.2 hvt hvc]
      cases nb <;> simp [toColumnDef, hfk, List.append_assoc]
    · have hfk' : fk.ReferencesTable = [] ∨ fk.ReferencesColumn = [] := by
        tauto
      rw [buildAddColumn_ok_of_noFK t (toColumnDef ⟨nm, ty, nb, pk, uq, some fk⟩)
        hT hC hTy hfk']
      cases nb <;> simp [toColumnDef, hfk]

theorem C2_witness :
    BuildAddColumnDDL "users".data
        (toColumnDef ⟨"email".data, "text".data, false, false, false, none⟩) =
      .ok "ALTER TABLE \"users\" ADD COLUMN \"email\" text NOT NULL".data := by
  rw [C2_add_column_statement_shape "users".data
    ⟨"email".data, "text".data, false, false, false, none⟩
    (by decide) (by decide) (by decide) (fun fk h => Option.noConfusion h)]
  rfl

/-- C3: a type that is not exactly on the allow-list makes
`sanitizeType` fail, and `BuildAddColumnDDL` then produces no statement
— the type is never replaced by a default. -/
theorem C3_invalid_type_rejected (t : Str) (col : ColumnDef)
    (h : IsValidType col.«Type» = false) :
    sanitizeType col.«Type» = .error .invalidType ∧
      ∀ s, BuildAddColumnDDL t col ≠ .ok s := by
  constructor
  · simp [sanitizeType, h]
  · intro s
    unfold BuildAddColumnDDL
    split
    · simp
    · split
      · simp
      · simp [sanitizeType, h]

theorem C3_witness :
    sanitizeType ("TEXT".data) = .error .invalidType :=
  (C3_invalid_type_rejected "users".data
    ⟨"age".data, "TEXT".data, true, false, false, [], []⟩ (by decide)).1

/-- C4: with a valid table name, column name and type, an invalid
foreign-key reference identifier (when both reference fields are
non-empty) aborts the whole operation with one of the two
invalid-foreign-key-identifier errors and no statement is produced; and
when the reference fields are not both non-empty the statement is
produced without any REFERENCES clause. -/
theorem C4_fk_reference_validation (t : Str) (col : ColumnDef)
    (hT : ValidIdentifier t = true)
    (hC : ValidIdentifier col.Name = true)
    (hTy : IsValidType col.«Type» = true) :
    (col.ReferencesTable ≠ [] → col.ReferencesColumn ≠ [] →
      (ValidIdentifier col.ReferencesTable = false ∨
        ValidIdentifier col.ReferencesColumn = false) →
      (BuildAddColumnDDL t col = .error .invalidFKTableName ∨
        BuildAddColumnDDL t col = .error .invalidFKColumnName) ∧
      ∀ s, BuildAddColumnDDL t col ≠ .ok s) ∧
    ((col.ReferencesTable = [] ∨ col.ReferencesColumn = []) →
      BuildAddColumnDDL t col =
        .ok ("ALTER TABLE ".data ++ quoteIdent t ++ " ADD COLUMN ".data ++
          quoteIdent col.Name ++ " ".data ++ col.«Type» ++
          (if col.NotNull then " NOT NULL".data else []) ++
          (if col.PrimaryKey then " PRIMARY KEY".data else []) ++
          (if col.Unique && !col.PrimaryKey then " UNIQUE".data else []))) := by
  constructor
  · intro h1 h2 h3
    obtain ⟨nm, ty, nn, pk, uq, rt, rc⟩ := col
    simp only at hC hTy h1 h2 h3 ⊢
    unfold BuildAddColumnDDL
    simp only [hT, hC, Bool.not_true, Bool.false_eq_true, if_false,
      sanitizeType, hTy, if_true]
    rw [if_pos ⟨h1, h2⟩]
    rcases h3 with h | h
    · simp [h]
    · cases hv : ValidIdentifier rt <;> simp [hv, h]
  · intro hfk
    exact buildAddColumn_ok_of_noFK t col hT hC hTy hfk

theorem C4_witness :
    (BuildAddColumnDDL "users".data
        ⟨"owner_id".data, "integer".data, true, false, false,
          "Users".data, "id".data⟩ = .error .invalidFKTableName ∨
      BuildAddColumnDDL "users".data
        ⟨"owner_id".data, "integer".data, true, false, false,
          "Users".data, "id".data⟩ = .error .invalidFKColumnName) ∧
    BuildAddColumnDDL "users".data
        ⟨"note".data, "text".data, true, false, false, [], []⟩ =
      .ok "ALTER TABLE \"users\" ADD COLUMN \"note\" text NOT NULL".data := by
  constructor
  · exact ((C4_fk_reference_validation "users".data
      ⟨"owner_id".data, "integer".data, true, false, false,
        "Users".data, "id".data⟩
      (by decide) (by decide) (by decide)).1
      (by decide) (by decide) (Or.inl (by decide))).1
  · rw [(C4_fk_reference_validation "users".data
      ⟨"note".data, "text".data, true, false, false, [], []⟩
      (by decide) (by decide) (by decide)).2 (Or.inl rfl)]
    rfl

/-- C6: the derived deadline is the minimum of the caller's deadline and
`now + queryTimeout` — an existing deadline is never extended. -/
theorem C6_timeout_never_extended (qt now : Int) (p : Option Int) :
    withTimeout qt now p =
      (match p with
       | some d => min d (now + qt)
       | none => now + qt) := by
  cases p with
  | none => rfl
  | some d =>
    simp only [withTimeout]
    split
    · next h => rw [min_eq_left (by omega)]
    · next h => rw [min_eq_right (by omega)]

/-- C5: when the switch-database handler reaches pool creation and the
creation or the ping fails, the introspector state is returned
unchanged, `SetPool` is never invoked, the current database name is the
pre-switch name, and the caller sees a connection error. -/
theorem C5_failed_switch_preserves_state (qt : Int)
    (st : IntrospectorState) (reqName : Str) (dbs : List Str)
    (newPool : Except Unit Nat) (pingOk : Bool) (cd : Int)
    (hname : reqName ≠ [])
    (hmem : dbs.contains reqName = true)
    (hfail : newPool = .error () ∨ pingOk = false) :
    (handleSwitchDatabase qt st reqName (.ok dbs) newPool pingOk cd).1
        = st ∧
    (handleSwitchDatabase qt st reqName (.ok dbs) newPool pingOk cd).2.1
        = .connectionError ∧
    (handleSwitchDatabase qt st reqName
        (.ok dbs) newPool pingOk cd).2.2.setPoolCalled = false ∧
    CurrentDatabase
        (handleSwitchDatabase qt st reqName (.ok dbs) newPool pingOk cd).1
      = CurrentDatabase st := by
  have hmem' : reqName ∈ dbs := by simpa using hmem
  unfold handleSwitchDatabase
  rw [if_neg hname]
  rcases hfail with he | hp
  · subst he
    simp [hmem']
  · subst hp
    cases newPool <;> simp [hmem']

theorem C5_witness :
    (handleSwitchDatabase 1000000000 ⟨some 1, "appdb".data⟩ "sales".data
        (.ok ["sales".data]) (.error ()) true 0).1
      = ⟨some 1, "appdb".data⟩ ∧
    (handleSwitchDatabase 1000000000 ⟨some 1, "appdb".data⟩ "sales".data
        (.ok ["sales".data]) (.error ()) true 0).2.1
      = .connectionError ∧
    (handleSwitchDatabase 1000000000 ⟨some 1, "appdb".data⟩ "sales".data
        (.ok ["sales".data]) (.error ()) true 0).2.2.setPoolCalled
      = false ∧
    CurrentDatabase
        (handleSwitchDatabase 1000000000 ⟨some 1, "appdb".data⟩
          "sales".data (.ok ["sales".data]) (.error ()) true 0).1
      = CurrentDatabase ⟨some 1, "appdb".data⟩ :=
  C5_failed_switch_preserves_state 1000000000 ⟨some 1, "appdb".data⟩
    "sales".data ["sales".data] (.error ()) true 0
    (by decide) (by decide) (Or.inl rfl)

theorem closeWaitBound_eq_max (qt : Int) :
    closeWaitBound qt = max (qt * 2) fiveSeconds := by
  unfold closeWaitBound
  by_cases h : qt * 2 < fiveSeconds
  · simp [h, max_eq_right (le_of_lt h)]
  · simp [h, max_eq_left (by omega : fiveSeconds ≤ qt * 2)]

/-- C7: on a successful switch that replaces a pool, close is initiated
on the replaced pool exactly once, the handler waits on it at most
`max(2 × queryTimeout, 5 s)`, and the wait is abandoned exactly when the
close takes longer than that bound. -/
theorem C7_close_wait_bounded (qt : Int) (st : IntrospectorState)
    (reqName : Str) (dbs : List Str) (p : Nat) (cd : Int)
    (hname : reqName ≠ [])
    (hmem : dbs.contains reqName = true)
    (hold : st.pool.isSome = true) :
    closeWaitBound qt = max (qt * 2) fiveSeconds ∧
    (handleSwitchDatabase qt st reqName
        (.ok dbs) (.ok p) true cd).2.2.closeCallsOnOldPool = 1 ∧
    (handleSwitchDatabase qt st reqName
        (.ok dbs) (.ok p) true cd).2.2.waitedForClose
      ≤ max (qt * 2) fiveSeconds ∧
    ((handleSwitchDatabase qt st reqName
        (.ok dbs) (.ok p) true cd).2.2.closeAbandoned = true
      ↔ max (qt * 2) fiveSeconds < cd) := by
  obtain ⟨po, nm⟩ := st
  cases po with
  | none => exact absurd hold (by simp)
  | some op =>
    have hmem' : reqName ∈ dbs := by simpa using hmem
    have hb := closeWaitBound_eq_max qt
    refine ⟨hb, ?_, ?_, ?_⟩
    · unfold handleSwitchDatabase
      rw [if_neg hname]
      by_cases hcd : cd ≤ closeWaitBound qt <;> simp [hmem', SetPool, hcd]
    · rw [← hb]
      unfold handleSwitchDatabase
      rw [if_neg hname]
      by_cases hcd : cd ≤ closeWaitBound qt <;> simp [hmem', SetPool, hcd]
    · rw [← hb]
      unfold handleSwitchDatabase
      rw [if_neg hname]
      by_cases hcd : cd ≤ closeWaitBound qt <;>
        simp [hmem', SetPool, hcd] <;> omega

theorem C7_witness :
    closeWaitBound 1000000000 = max (1000000000 * 2) fiveSeconds ∧
    (handleSwitchDatabase 1000000000 ⟨some 1, "appdb".data⟩ "sales".data
        (.ok ["sales".data]) (.ok 2) true 7000000000).2.2.closeCallsOnOldPool
      = 1 ∧
    (handleSwitchDatabase 1000000000 ⟨some 1, "appdb".data⟩ "sales".data
        (.ok ["sales".data]) (.ok 2) true 7000000000).2.2.waitedForClose
      ≤ max (1000000000 * 2) fiveSeconds ∧
    ((handleSwitchDatabase 1000000000 ⟨some 1, "appdb".data⟩ "sales".data
        (.ok ["sales".data]) (.ok 2) true 7000000000).2.2.closeAbandoned
        = true
      ↔ max (1000000000 * 2) fiveSeconds < 7000000000) :=
  C7_close_wait_bounded 1000000000 ⟨some 1, "appdb".data⟩ "sales".data
    ["sales".data] 2 7000000000 (by decide) (by decide) (by decide)

/-- C8 as stated is false: when the replaced pool's close completes
within the bound, the handler holds `poolCloseMu` for the entire close
duration, so the lock is not released before the close duration elapses.
Here the close takes 3 s (bound 5 s) and the lock is held for all 3 s. -/
theorem C8_counterexample :
    ¬ ((handleSwitchDatabase 1000000000 ⟨some 1, "appdb".data⟩
        "sales".data (.ok ["sales".data]) (.ok 2) true
        3000000000).2.2.lockHeldFor < 3000000000) := by
  decide

/-- C8 amended: the switch request holds the close-serialization lock
for the swap plus the bounded close wait — `min(closeDuration, bound)`
with bound `max(2 × queryTimeout, 5 s)` — so it can hold the lock for
the entire close duration when the close finishes within the bound, but
never longer than the bound. -/
theorem C8_lock_held_for_bounded_wait (qt : Int)
    (st : IntrospectorState) (reqName : Str) (dbs : List Str) (p : Nat)
    (cd : Int)
    (hname : reqName ≠ [])
    (hmem : dbs.contains reqName = true)
    (hold : st.pool.isSome = true) :
    (handleSwitchDatabase qt st reqName
        (.ok dbs) (.ok p) true cd).2.2.lockHeldFor
      = min cd (closeWaitBound qt) ∧
    (handleSwitchDatabase qt st reqName
        (.ok dbs) (.ok p) true cd).2.2.lockHeldFor
      ≤ closeWaitBound qt := by
  obtain ⟨po, nm⟩ := st
  cases po with
  | none => exact absurd hold (by simp)
  | some op =>
    have hmem' : reqName ∈ dbs := by simpa using hmem
    unfold handleSwitchDatabase
    rw [if_neg hname]
    by_cases hcd : cd ≤ closeWaitBound qt
    · simp [hmem', SetPool, hcd, min_eq_left hcd]
    · simp [hmem', SetPool, hcd,
        min_eq_right (by omega : closeWaitBound qt ≤ cd)]

theorem C8_witness :
    (handleSwitchDatabase 1000000000 ⟨some 1, "appdb".data⟩ "sales".data
        (.ok ["sales".data]) (.ok 2) true 3000000000).2.2.lockHeldFor
      = min 3000000000 (closeWaitBound 1000000000) ∧
    (handleSwitchDatabase 1000000000 ⟨some 1, "appdb".data⟩ "sales".data
        (.ok ["sales".data]) (.ok 2) true 3000000000).2.2.lockHeldFor
      ≤ closeWaitBound 1000000000 :=
  C8_lock_held_for_bounded_wait 1000000000 ⟨some 1, "appdb".data⟩
    "sales".data ["sales".data] 2 3000000000
    (by decide) (by decide) (by decide)

/-- C9 as stated is false: the add-column handler does not validate the
foreign-key reference fields, so a request that passes every check the
handler performs can still reach a foreign-key error branch of
`BuildAddColumnDDL`. Here the reference table `Users` is an invalid
identifier, the handler's checks all pass, and the builder errors. -/
theorem C9_counterexample :
    handleAddColumnValidates "users".data
        ⟨"owner_id".data, "integer".data, false, false, false,
          some ⟨"owner_id".data, "Users".data, "id".data⟩⟩ = true ∧
      BuildAddColumnDDL "users".data
          (toColumnDef ⟨"owner_id".data, "integer".data, false, false,
            false, some ⟨"owner_id".data, "Users".data, "id".data⟩⟩) =
        .error .invalidFKTableName :=
  ⟨by decide, by rfl⟩

/-- C9 amended: the handler's checks (valid table name, valid column
name, allow-listed type) make the table-name, column-name and type error
branches of `BuildAddColumnDDL` unreachable — any remaining error is a
foreign-key one — and when additionally every supplied foreign-key
reference pair is valid, the builder always returns a statement. -/
theorem C9_handler_precondition_coverage (t : Str)
    (req : AddColumnRequest)
    (h : handleAddColumnValidates t req = true) :
    ((∀ fk, req.ForeignKey = some fk → fk.ReferencesTable ≠ [] →
        fk.ReferencesColumn ≠ [] →
        ValidIdentifier fk.ReferencesTable = true ∧
          ValidIdentifier fk.ReferencesColumn = true) →
      ∃ s, BuildAddColumnDDL t (toColumnDef req) = .ok s) ∧
    (∀ e, BuildAddColumnDDL t (toColumnDef req) = .error e →
      e = .invalidFKTableName ∨ e = .invalidFKColumnName) := by
  simp only [handleAddColumnValidates, Bool.and_eq_true] at h
  obtain ⟨⟨⟨⟨⟨-, hT⟩, -⟩, hC⟩, -⟩, hTy⟩ := h
  obtain ⟨nm, ty, nb, pk, uq, fko⟩ := req
  simp only at hT hC hTy ⊢
  constructor
  · intro hFK
    cases fko with
    | none =>
      exact ⟨_, buildAddColumn_ok_of_noFK t
        (toColumnDef ⟨nm, ty, nb, pk, uq, none⟩) hT hC hTy (Or.inl rfl)⟩
    | some fk =>
      by_cases hfk : fk.ReferencesTable ≠ [] ∧ fk.ReferencesColumn ≠ []
      · obtain ⟨hvt, hvc⟩ := hFK fk rfl hfk.1 hfk.2
        exact ⟨_, buildAddColumn_ok_of_FK t
          (toColumnDef ⟨nm, ty, nb, pk, uq, some fk⟩) hT hC hTy
          hfk.1 hfk.2 hvt hvc⟩
      · have hfk' : fk.ReferencesTable = [] ∨ fk.ReferencesColumn = [] := by
          tauto
        exact ⟨_, buildAddColumn_ok_of_noFK t
          (toColumnDef ⟨nm, ty, nb, pk, uq, some fk⟩) hT hC hTy hfk'⟩
  · intro e he
    unfold BuildAddColumnDDL at he
    simp only [toColumnDef, hT, hC, Bool.not_true, Bool.false_eq_true,
      if_false, sanitizeType, hTy, if_true] at he
    set rt := (match fko with
      | some fk => fk.ReferencesTable
      | none => ([] : Str)) with hrt
    set rc := (match fko with
      | some fk => fk.ReferencesColumn
      | none => ([] : Str)) with hrc
    by_cases hc : rt ≠ [] ∧ rc ≠ []
    · rw [if_pos hc] at he
      cases hv1 : ValidIdentifier rt <;> cases hv2 : ValidIdentifier rc <;>
        simp [hv1, hv2] at he <;> tauto
    · rw [if_neg hc] at he
      simp at he

theorem C9_witness :
    DDLError.invalidFKTableName = DDLError.invalidFKTableName ∨
      DDLError.invalidFKTableName = DDLError.invalidFKColumnName :=
  (C9_handler_precondition_coverage "users".data
    ⟨"owner_id".data, "integer".data, false, false, false,
      some ⟨"owner_id".data, "Users".data, "id".data⟩⟩ (by decide)).2
    .invalidFKTableName (by rfl)

/-- C10: a switch can replace the live database name only by a name in
the `ListDatabases` result; that result never contains `postgres`,
`template0`, `template1` or any template database; and a request naming
an unlisted database is rejected as unknown with no pool created. -/
theorem C10_switch_only_to_listed_databases (qt : Int)
    (catalog : List PgDatabase) (st : IntrospectorState) (reqName : Str)
    (newPool : Except Unit Nat) (pingOk : Bool) (cd : Int) :
    ((handleSwitchDatabase qt st reqName
        (.ok (listDatabasesModel catalog)) newPool pingOk cd).1.dbName
          = st.dbName ∨
      ((handleSwitchDatabase qt st reqName
          (.ok (listDatabasesModel catalog)) newPool pingOk cd).1.dbName
            = reqName ∧
        reqName ∈ listDatabasesModel catalog)) ∧
    (∀ n, n ∈ listDatabasesModel catalog →
      n ≠ "postgres".data ∧ n ≠ "template0".data ∧
        n ≠ "template1".data ∧
        ∃ row, row ∈ catalog ∧ row.datname = n ∧
          row.datistemplate = false) ∧
    (reqName ≠ [] → reqName ∉ listDatabasesModel catalog →
      (handleSwitchDatabase qt st reqName
          (.ok (listDatabasesModel catalog)) newPool pingOk cd).1 = st ∧
      (handleSwitchDatabase qt st reqName
          (.ok (listDatabasesModel catalog)) newPool pingOk cd).2.1
        = .unknownDatabase ∧
      (handleSwitchDatabase qt st reqName
          (.ok (listDatabasesModel catalog)) newPool pingOk
          cd).2.2.poolCreated = false) := by
  refine ⟨?_, ?_, ?_⟩
  · unfold handleSwitchDatabase
    by_cases h1 : reqName = []
    · simp [h1]
    · rw [if_neg h1]
      by_cases h2 : reqName ∈ listDatabasesModel catalog
      · cases newPool with
        | error e => simp [h2]
        | ok p =>
          cases pingOk with
          | false => simp [h2]
          | true =>
            cases hpo : st.pool with
            | none => simp [h2, SetPool, hpo]
            | some op =>
              by_cases hcd : cd ≤ closeWaitBound qt <;>
                simp [h2, SetPool, hpo, hcd]
      · simp [h2]
  · intro n hn
    unfold listDatabasesModel at hn
    simp only [List.mem_map, List.mem_filter, Bool.and_eq_true,
      Bool.not_eq_true', beq_eq_false_iff_ne] at hn
    obtain ⟨row, ⟨hrow, hfl⟩, heq⟩ := hn
    subst heq
    exact ⟨hfl.1.1.2, hfl.1.2, hfl.2, row, hrow, rfl, hfl.1.1.1⟩
  · intro hne hnc
    unfold handleSwitchDatabase
    rw [if_neg hne]
    simp [hnc]

theorem C10_witness :
    ((handleSwitchDatabase 1000000000 ⟨some 1, "appdb".data⟩
        "postgres".data
        (.ok (listDatabasesModel
          [⟨"postgres".data, false⟩, ⟨"template0".data, true⟩,
            ⟨"template1".data, true⟩, ⟨"sales".data, false⟩]))
        (.ok 2) true 0).1 = ⟨some 1, "appdb".data⟩ ∧
      (handleSwitchDatabase 1000000000 ⟨some 1, "appdb".data⟩
          "postgres".data
          (.ok (listDatabasesModel
            [⟨"postgres".data, false⟩, ⟨"template0".data, true⟩,
              ⟨"template1".data, true⟩, ⟨"sales".data, false⟩]))
          (.ok 2) true 0).2.1 = .unknownDatabase ∧
      (handleSwitchDatabase 1000000000 ⟨some 1, "appdb".data⟩
          "postgres".data
          (.ok (listDatabasesModel
            [⟨"postgres".data, false⟩, ⟨"template0".data, true⟩,
              ⟨"template1".data, true⟩, ⟨"sales".data, false⟩]))
          (.ok 2) true 0).2.2.poolCreated = false) :=
  (C10_switch_only_to_listed_databases 1000000000
    [⟨"postgres".data, false⟩, ⟨"template0".data, true⟩,
      ⟨"template1".data, true⟩, ⟨"sales".data, false⟩]
    ⟨some 1, "appdb".data⟩ "postgres".data (.ok 2) true 0).2.2
    (by decide) (by decide)

end AltDb
